import Mathlib

/-!
Shallow embedding of `src/util/convert_cookies.py`, a one-shot script that
reads a JSON array of browser cookie records and writes them out in the
Netscape cookie-file format.

The script's dynamic values are Python/JSON values, modelled by `JValue`
(JSON numbers are modelled exactly as rationals).  The script itself is a
straight-line program: open and parse the input file, open the output file
for writing (truncating it), write a two-line header, write one tab-joined
line per record, then abort with `exit(1)` if the parsed value was falsy,
otherwise print a summary.  `runProgram` models one run of the script as a
function from the state of the input file (missing / unparsable / parsed
value) and the prior content of the output file to the observable outcome:
exit status, final output-file content, stdout lines, and the count the
summary reports.  An uncaught Python exception is an abnormal exit: nonzero
exit code, nothing printed to stdout, output file left with whatever had
been written so far.
-/

/-- A parsed JSON value as produced by Python's `json.load`:
`None`, `bool`, numbers (`int`/`float`, modelled exactly as `Rat`),
`str`, `list`, and `dict` (association list; `json.load` keeps the last
value for a duplicated key). -/
inductive JValue where
  | null
  | bool (b : Bool)
  | num (q : Rat)
  | str (s : String)
  | arr (elems : List JValue)
  | obj (entries : List (String × JValue))
  deriving Repr

/-- Python truthiness (`bool(x)`): `None`, `False`, zero, and empty
containers/strings are falsy, everything else truthy.  Used by the
script's `if not cookies:` check. -/
def pyTruthy : JValue → Bool
  | .null => false
  | .bool b => b
  | .num q => decide (q ≠ 0)
  | .str s => !s.toList.isEmpty
  | .arr elems => !elems.isEmpty
  | .obj entries => !entries.isEmpty

/-- `dict.get(k, d)`: the value stored under key `k`, or the default `d`
when the key is absent.  A Python dict has at most one entry per key; for
an association list built by `json.load` the surviving value of a
duplicated key is the last one, hence `getLast?` over the matching
entries. -/
def dget (entries : List (String × JValue)) (k : String) (d : JValue) : JValue :=
  match (entries.filter (fun kv => kv.1 == k)).getLast? with
  | some kv => kv.2
  | none => d

/-- Whether the dict has an entry for key `k`. -/
def hasKey (entries : List (String × JValue)) (k : String) : Bool :=
  entries.any (fun kv => kv.1 == k)

/-- `str.startswith(p)`, computed on the character list. -/
def pyStartsWith (s p : String) : Bool :=
  decide (s.toList.take p.toList.length = p.toList)

/-- The string payload of a `str` value; `none` models the `AttributeError`
or `TypeError` the script hits when a field that must be a string
(`domain` for `.startswith`, or any field handed to `"\t".join`) is not. -/
def pyStr? : JValue → Option String
  | .str s => some s
  | _ => none

/-- Truncation of an exact rational toward zero, the value of Python's
`int()` on a number (`int(-3.5) = -3`). -/
def ratTrunc (q : Rat) : Int := q.num.tdiv (q.den : Int)

def pyWhitespace : List Char := [' ', '\t', '\n', '\x0d', '\x0b', '\x0c']

/-- Python `int(s)` on a string: strip surrounding whitespace, allow one
leading sign, then decimal digits (digit-group underscores are not
modelled); `ValueError` (here `none`) otherwise.  Unreachable for inputs
the claims touch, present for faithfulness of `int(cookie.get(...))`. -/
def pyIntOfString (s : String) : Option Int :=
  let core := ((s.toList.dropWhile (· ∈ pyWhitespace)).reverse.dropWhile
      (· ∈ pyWhitespace)).reverse
  let (sign, digits) :=
    match core with
    | '+' :: rest => ((1 : Int), rest)
    | '-' :: rest => ((-1 : Int), rest)
    | rest => ((1 : Int), rest)
  if digits ≠ [] ∧ digits.all Char.isDigit then
    some (sign * (digits.foldl (fun acc c => acc * 10 + (c.toNat - 48)) 0 : Nat))
  else
    none

/-- Python `int(x)` on a JSON value: numbers truncate toward zero, `bool`
is an `int` subclass (`int(True) = 1`), strings parse as decimal
integers; `None`, lists and dicts raise (`none`). -/
def pyInt? : JValue → Option Int
  | .num q => some (ratTrunc q)
  | .bool b => some (if b then 1 else 0)
  | .str s => pyIntOfString s
  | _ => none

/-- The seven Netscape fields of one cookie record, in the order the
script builds them: domain, include-subdomain flag, path, secure flag,
expires, name, value.  `none` models an uncaught exception while the
record is processed (non-string `domain`/`path`/`name`/`value`, or an
`expirationDate` that `int()` rejects). -/
def cookieFields (cookie : List (String × JValue)) : Option (List String) := do
  let domain ← pyStr? (dget cookie "domain" (.str ""))
  let include_subdomain := if pyStartsWith domain "." then "TRUE" else "FALSE"
  let path ← pyStr? (dget cookie "path" (.str "/"))
  let secure := if pyTruthy (dget cookie "secure" (.bool false)) then "TRUE" else "FALSE"
  let expires ← pyInt? (dget cookie "expirationDate" (.num (mkRat 2147483647 1)))
  let name ← pyStr? (dget cookie "name" (.str ""))
  let value ← pyStr? (dget cookie "value" (.str ""))
  return [domain, include_subdomain, path, secure, toString expires, name, value]

/-- The chunk `f.write` appends for one record:
`"\t".join([...]) + "\n"`. -/
def cookieLine (cookie : List (String × JValue)) : Option String :=
  (cookieFields cookie).map (fun fs => String.intercalate "\t" fs ++ "\n")

/-- One iteration of the output loop on an arbitrary iterated element:
`cookie.get` requires a dict (`AttributeError` otherwise). -/
def recordLine : JValue → Option String
  | .obj entries => cookieLine entries
  | _ => none

/-- The output loop over the iterated elements: the concatenation of the
chunks written before the loop finished or died, and whether it finished.
A record that raises contributes nothing (the write comes after the
join), and iteration stops there. -/
def linesOut : List JValue → String × Bool
  | [] => ("", true)
  | c :: rest =>
    match recordLine c with
    | none => ("", false)
    | some line =>
      let (s, ok) := linesOut rest
      (line ++ s, ok)

/-- `for cookie in cookies:` — what Python iteration yields: list
elements, dict keys, the characters of a string; numbers, booleans and
`None` are not iterable (`TypeError`, modelled as `none`). -/
def pyIter : JValue → Option (List JValue)
  | .arr elems => some elems
  | .obj entries => some (entries.map (fun kv => JValue.str kv.1))
  | .str s => some (s.toList.map (fun c => JValue.str (String.singleton c)))
  | _ => none

/-- The state of the input file `../config/cookies.json` when the script
runs: absent/unreadable (`open` raises), readable but not valid JSON
(`json.load` raises), or parsed to a value. -/
inductive InputState where
  | missing
  | invalid
  | parsed (v : JValue)

def input_file : String := "../config/cookies.json"

def output_file : String := "../config/cookies.txt"

/-- The header written first: `"# Netscape HTTP Cookie File\n\n"`. -/
def netscapeHeader : String := "# Netscape HTTP Cookie File\n\n"

/-- The observable outcome of one run: whether the process exited with
code 0, the final content of `../config/cookies.txt`, the lines printed
to stdout, and the count the summary reported as converted (`none` when
no summary was printed). -/
structure RunResult where
  exitOk : Bool
  outputContent : String
  stdout : List String
  reportedCount : Option Nat
  deriving Repr, DecidableEq

/-- One run of the script, from the input-file state and the prior
content of the output file.  Mirrors the source order: open/parse input
(uncaught exception leaves the output file untouched); open output with
mode `"w"` (truncates) and write the header; loop over the records; then
`if not cookies:` abort with `exit(1)`; otherwise print the summary and
exit 0. -/
def runProgram (prior : String) : InputState → RunResult
  | .missing => ⟨false, prior, [], none⟩
  | .invalid => ⟨false, prior, [], none⟩
  | .parsed v =>
    match pyIter v with
    | none => ⟨false, netscapeHeader, [], none⟩
    | some items =>
      match linesOut items with
      | (body, false) => ⟨false, netscapeHeader ++ body, [], none⟩
      | (body, true) =>
        if pyTruthy v then
          ⟨true, netscapeHeader ++ body,
            ["Converted " ++ toString items.length ++
              " cookies from JSON to Netscape format.",
             "Saved to " ++ output_file ++ ".",
             "Conversion complete."],
            some items.length⟩
        else
          ⟨false, netscapeHeader ++ body,
            ["No cookies found in JSON. Aborting."], none⟩

/-- `true` iff the value is a JSON mapping (a Python dict). -/
def isObj : JValue → Bool
  | .obj _ => true
  | _ => false

/-- `true` iff the value is a JSON array all of whose elements are
mappings — the shape the spec calls "an array of mappings". -/
def isArrayOfMappings : JValue → Bool
  | .arr elems => elems.all isObj
  | _ => false

/-- Number of newline characters, i.e. the number of (newline-terminated)
lines of a text file's content. -/
def newlineCount (s : String) : Nat := s.toList.count '\n'

/-- Concatenation of a list of strings, in order. -/
def concatLines : List String → String
  | [] => ""
  | l :: ls => l ++ concatLines ls

/-- `true` iff each chunk's only newline is its terminator, i.e. no
field string contributed an embedded newline to any record's chunk. -/
def chunksSingleNewline (ls : List String) : Bool :=
  ls.all (fun l => newlineCount l == 1)

/-! ## Helper lemmas -/

theorem dget_of_not_hasKey (entries : List (String × JValue)) (k : String) (d : JValue)
    (h : hasKey entries k = false) : dget entries k d = d := by
  have hall : ∀ kv ∈ entries, ¬ ((fun kv : String × JValue => kv.1 == k) kv = true) := by
    simpa [hasKey, List.any_eq_false] using h
  unfold dget
  rw [List.filter_eq_nil_iff.mpr hall]
  rfl

theorem cookieFields_spec (cookie : List (String × JValue)) (fs : List String)
    (h : cookieFields cookie = some fs) :
    ∃ domain path expires name value,
      pyStr? (dget cookie "domain" (.str "")) = some domain ∧
      pyStr? (dget cookie "path" (.str "/")) = some path ∧
      pyInt? (dget cookie "expirationDate" (.num (mkRat 2147483647 1))) = some expires ∧
      pyStr? (dget cookie "name" (.str "")) = some name ∧
      pyStr? (dget cookie "value" (.str "")) = some value ∧
      fs = [domain, if pyStartsWith domain "." then "TRUE" else "FALSE", path,
            if pyTruthy (dget cookie "secure" (.bool false)) then "TRUE" else "FALSE",
            toString expires, name, value] := by
  unfold cookieFields at h
  rcases hdom : pyStr? (dget cookie "domain" (.str "")) with _ | domain <;> rw [hdom] at h
  · exact absurd h (by simp)
  rcases hpath : pyStr? (dget cookie "path" (.str "/")) with _ | path <;> rw [hpath] at h
  · exact absurd h (by simp)
  rcases hexp : pyInt? (dget cookie "expirationDate" (.num (mkRat 2147483647 1))) with _ | expires <;>
    rw [hexp] at h
  · exact absurd h (by simp)
  rcases hname : pyStr? (dget cookie "name" (.str "")) with _ | name <;> rw [hname] at h
  · exact absurd h (by simp)
  rcases hval : pyStr? (dget cookie "value" (.str "")) with _ | value <;> rw [hval] at h
  · exact absurd h (by simp)
  refine ⟨domain, path, expires, name, value, rfl, rfl, rfl, rfl, rfl, ?_⟩
  simpa using h.symm

theorem linesOut_of_forall_isSome (items : List JValue)
    (h : ∀ x ∈ items, (recordLine x).isSome) :
    ∃ ls, List.Forall₂ (fun x l => recordLine x = some l) items ls ∧
      linesOut items = (concatLines ls, true) := by
  induction items with
  | nil => exact ⟨[], List.Forall₂.nil, rfl⟩
  | cons c rest ih =>
    obtain ⟨line, hline⟩ := Option.isSome_iff_exists.mp (h c (by simp))
    obtain ⟨ls, hf, hlo⟩ := ih (fun x hx => h x (by simp [hx]))
    refine ⟨line :: ls, List.Forall₂.cons hline hf, ?_⟩
    simp [linesOut, hline, hlo, concatLines]

theorem linesOut_snd_true_all_obj (items : List JValue)
    (h : (linesOut items).2 = true) : ∀ x ∈ items, isObj x = true := by
  induction items with
  | nil => simp
  | cons c rest ih =>
    intro x hx
    rcases hrl : recordLine c with _ | line
    · rw [linesOut, hrl] at h
      exact absurd h (by simp)
    · rcases hrest : linesOut rest with ⟨s, ok⟩
      rw [linesOut, hrl, hrest] at h
      simp only at h
      rcases List.mem_cons.mp hx with rfl | hx
      · cases x <;> simp [recordLine, isObj] at hrl ⊢
      · exact ih (by rw [hrest]; exact h) x hx

theorem newlineCount_append (a b : String) :
    newlineCount (a ++ b) = newlineCount a + newlineCount b := by
  simp [newlineCount, String.toList]

theorem linesOut_eq_of_forall₂ {elems : List JValue} {ls : List String}
    (hf : List.Forall₂ (fun x l => recordLine x = some l) elems ls) :
    linesOut elems = (concatLines ls, true) := by
  induction hf with
  | nil => rfl
  | cons hcl _ ih => simp [linesOut, hcl, ih, concatLines]

theorem newlineCount_concatLines (ls : List String)
    (h : ∀ l ∈ ls, newlineCount l = 1) :
    newlineCount (concatLines ls) = ls.length := by
  induction ls with
  | nil => rfl
  | cons l rest ih =>
    rw [concatLines, newlineCount_append, h l (by simp),
      ih (fun x hx => h x (by simp [hx]))]
    simp [Nat.add_comm]

/-! ## Claims -/

/-- C1: for every cookie record whose conversion succeeds, the
`includeSubdomains` output field (index 1) is `"TRUE"` iff the record's
domain string starts with `"."`; when the `domain` key is missing the
domain defaults to `""` (hence `"FALSE"`). -/
theorem C1_includeSubdomains_iff_domain_dot (cookie : List (String × JValue))
    (fs : List String) (domain : String)
    (h : cookieFields cookie = some fs)
    (hdom : pyStr? (dget cookie "domain" (JValue.str "")) = some domain) :
    fs[1]? = some (if pyStartsWith domain "." then "TRUE" else "FALSE") ∧
    (fs[1]? = some "TRUE" ↔ pyStartsWith domain "." = true) ∧
    (hasKey cookie "domain" = false → domain = "" ∧ fs[1]? = some "FALSE") := by
  obtain ⟨d, p, e, n, v, hd, hp, he, hn, hv, hfs⟩ := cookieFields_spec cookie fs h
  rw [hdom] at hd
  obtain rfl : domain = d := by injection hd
  subst hfs
  refine ⟨by simp, ?_, ?_⟩
  · by_cases hsw : pyStartsWith domain "." = true
    · simp [hsw]
    · simp [hsw]
  · intro hk
    have : dget cookie "domain" (JValue.str "") = JValue.str "" :=
      dget_of_not_hasKey cookie "domain" (JValue.str "") hk
    rw [this] at hdom
    obtain rfl : domain = "" := by simpa [pyStr?] using hdom.symm
    simp [pyStartsWith]

/-- C1 witness: a concrete record with domain `".example.com"` gets the
field `"TRUE"`, and the theorem's hypotheses hold for it. -/
theorem C1_witness :
    ([".example.com", "TRUE", "/", "FALSE", "2147483647", "sid",
        "abc123"] : List String)[1]? =
      some (if pyStartsWith ".example.com" "." then "TRUE" else "FALSE") ∧
    ((([".example.com", "TRUE", "/", "FALSE", "2147483647", "sid",
        "abc123"] : List String)[1]? = some "TRUE") ↔
      pyStartsWith ".example.com" "." = true) ∧
    (hasKey [("domain", JValue.str ".example.com"), ("name", JValue.str "sid"),
        ("value", JValue.str "abc123")] "domain" = false →
      ".example.com" = "" ∧
      ([".example.com", "TRUE", "/", "FALSE", "2147483647", "sid",
          "abc123"] : List String)[1]? = some "FALSE") :=
  C1_includeSubdomains_iff_domain_dot
    [("domain", JValue.str ".example.com"), ("name", JValue.str "sid"),
      ("value", JValue.str "abc123")]
    [".example.com", "TRUE", "/", "FALSE", "2147483647", "sid", "abc123"]
    ".example.com" (by decide) (by decide)

/-- C3: for every cookie record whose conversion succeeds, the `expires`
output field (index 4) is the decimal rendering of the truncation toward
zero of the record's `expirationDate` number (`dget` yields the default
`2147483647` exactly when the key is missing); in particular a missing
key yields `"2147483647"`. -/
theorem C3_expires_default_and_truncation (cookie : List (String × JValue))
    (fs : List String) (q : Rat)
    (h : cookieFields cookie = some fs)
    (hq : dget cookie "expirationDate" (JValue.num (mkRat 2147483647 1)) = JValue.num q) :
    fs[4]? = some (toString (ratTrunc q)) ∧
    (hasKey cookie "expirationDate" = false → fs[4]? = some "2147483647") := by
  obtain ⟨d, p, e, n, v, hd, hp, he, hn, hv, hfs⟩ := cookieFields_spec cookie fs h
  rw [hq] at he
  obtain rfl : e = ratTrunc q := by
    simpa [pyInt?] using he.symm
  subst hfs
  refine ⟨by simp, ?_⟩
  intro hk
  have hdef := dget_of_not_hasKey cookie "expirationDate" (JValue.num (mkRat 2147483647 1)) hk
  rw [hdef] at hq
  obtain rfl : mkRat 2147483647 1 = q := by injection hq
  simp
  decide

/-- C3 witness: `expirationDate = 1700000000.7` (the rational
`17000000007/10`) yields the field `"1700000000"`. -/
theorem C3_witness :
    (["", "FALSE", "/", "FALSE", "1700000000", "", ""] : List String)[4]? =
      some (toString (ratTrunc (mkRat 17000000007 10))) ∧
    (hasKey [("expirationDate", JValue.num (mkRat 17000000007 10))]
        "expirationDate" = false →
      (["", "FALSE", "/", "FALSE", "1700000000", "", ""] : List String)[4]? =
        some "2147483647") :=
  C3_expires_default_and_truncation
    [("expirationDate", JValue.num (mkRat 17000000007 10))]
    ["", "FALSE", "/", "FALSE", "1700000000", "", ""]
    (mkRat 17000000007 10) (by decide) (by rfl)

/-- C4: for every cookie record whose conversion succeeds, a missing
`path` key yields the `path` output field (index 2) `"/"`, and a missing
`secure` key yields the `secure` output field (index 3) `"FALSE"`. -/
theorem C4_path_and_secure_defaults (cookie : List (String × JValue))
    (fs : List String) (h : cookieFields cookie = some fs) :
    (hasKey cookie "path" = false → fs[2]? = some "/") ∧
    (hasKey cookie "secure" = false → fs[3]? = some "FALSE") := by
  obtain ⟨d, p, e, n, v, hd, hp, he, hn, hv, hfs⟩ := cookieFields_spec cookie fs h
  subst hfs
  constructor
  · intro hk
    have hdef := dget_of_not_hasKey cookie "path" (JValue.str "/") hk
    rw [hdef] at hp
    obtain rfl : p = "/" := by simpa [pyStr?] using hp.symm
    simp
  · intro hk
    have hdef := dget_of_not_hasKey cookie "secure" (JValue.bool false) hk
    rw [hdef]
    simp [pyTruthy]

/-- C4 witness: the empty record (both keys missing). -/
theorem C4_witness :
    (hasKey ([] : List (String × JValue)) "path" = false →
      (["", "FALSE", "/", "FALSE", "2147483647", "", ""] : List String)[2]? =
        some "/") ∧
    (hasKey ([] : List (String × JValue)) "secure" = false →
      (["", "FALSE", "/", "FALSE", "2147483647", "", ""] : List String)[3]? =
        some "FALSE") :=
  C4_path_and_secure_defaults []
    ["", "FALSE", "/", "FALSE", "2147483647", "", ""] (by decide)

/-- C9: the `secure` output field (index 3) is decided by Python
truthiness of the record's `secure` value, not by a boolean check: any
truthy value (e.g. the nonempty string `"false"`, or a nonzero number)
gives `"TRUE"`, any falsy value (`False`, `0`, `""`, `None`) gives
`"FALSE"`. -/
theorem C9_secure_by_truthiness (cookie : List (String × JValue))
    (fs : List String) (h : cookieFields cookie = some fs) :
    fs[3]? = some (if pyTruthy (dget cookie "secure" (JValue.bool false))
      then "TRUE" else "FALSE") ∧
    pyTruthy (JValue.str "false") = true ∧
    pyTruthy (JValue.num 1700) = true ∧
    pyTruthy (JValue.bool false) = false ∧
    pyTruthy (JValue.num 0) = false ∧
    pyTruthy (JValue.str "") = false ∧
    pyTruthy JValue.null = false := by
  obtain ⟨d, p, e, n, v, hd, hp, he, hn, hv, hfs⟩ := cookieFields_spec cookie fs h
  subst hfs
  exact ⟨by simp, by decide, by decide, by decide, by decide, by decide, by decide⟩

/-- C9 witness: `secure` present as the string `"false"` (truthy) gives
the field `"TRUE"`. -/
theorem C9_witness :
    (["", "FALSE", "/", "TRUE", "2147483647", "", ""] : List String)[3]? =
      some (if pyTruthy (dget [("secure", JValue.str "false")] "secure"
        (JValue.bool false)) then "TRUE" else "FALSE") ∧
    pyTruthy (JValue.str "false") = true ∧
    pyTruthy (JValue.num 1700) = true ∧
    pyTruthy (JValue.bool false) = false ∧
    pyTruthy (JValue.num 0) = false ∧
    pyTruthy (JValue.str "") = false ∧
    pyTruthy JValue.null = false :=
  C9_secure_by_truthiness [("secure", JValue.str "false")]
    ["", "FALSE", "/", "TRUE", "2147483647", "", ""] (by decide)

/-- C5: an empty parsed JSON array is treated as a failure: the run exits
nonzero, prints only the abort message (never a converted count), and the
output file has already been truncated to the two-line header, whatever
its prior content was. -/
theorem C5_empty_array_aborts (prior : String) :
    runProgram prior (InputState.parsed (JValue.arr [])) =
      ⟨false, netscapeHeader, ["No cookies found in JSON. Aborting."], none⟩ := by
  rfl

/-- C7: a missing or unreadable input file makes the single run fail with
a nonzero exit, no summary and no converted count, leaving the output
file untouched. -/
theorem C7_missing_input_fails (prior : String) :
    runProgram prior InputState.missing = ⟨false, prior, [], none⟩ := by
  rfl

/-- C10: the conversion is deterministic and depends only on the parsed
JSON value: runs from any two environments (any prior output-file
contents) over the same parsed input produce the same exit status, the
same output-file content, the same stdout and the same reported count. -/
theorem C10_deterministic (prior₁ prior₂ : String) (v : JValue) :
    runProgram prior₁ (InputState.parsed v) = runProgram prior₂ (InputState.parsed v) := by
  rfl

/-- C8: a successful run over a non-empty array of N records (every
record converting) exits with code 0 and reports exactly N in its
summary (`Converted N cookies…`, `Saved to <path>.`). -/
theorem C8_success_reports_count (prior : String) (elems : List JValue)
    (hne : elems ≠ [])
    (hall : ∀ x ∈ elems, (recordLine x).isSome = true) :
    (runProgram prior (InputState.parsed (JValue.arr elems))).exitOk = true ∧
    (runProgram prior (InputState.parsed (JValue.arr elems))).reportedCount =
      some elems.length ∧
    (runProgram prior (InputState.parsed (JValue.arr elems))).stdout =
      ["Converted " ++ toString elems.length ++
        " cookies from JSON to Netscape format.",
       "Saved to " ++ output_file ++ ".",
       "Conversion complete."] := by
  obtain ⟨ls, hf, hlo⟩ := linesOut_of_forall_isSome elems hall
  cases elems with
  | nil => exact absurd rfl hne
  | cons c rest =>
    simp [runProgram, pyIter, hlo, pyTruthy, List.isEmpty]

/-- C8 witness: the spec's example record converts with exit 0, count 1
and the full summary. -/
theorem C8_witness :
    (runProgram "" (InputState.parsed (JValue.arr [JValue.obj
      [("domain", JValue.str ".example.com"), ("name", JValue.str "sid"),
       ("value", JValue.str "abc123"),
       ("secure", JValue.bool true)]]))).exitOk = true ∧
    (runProgram "" (InputState.parsed (JValue.arr [JValue.obj
      [("domain", JValue.str ".example.com"), ("name", JValue.str "sid"),
       ("value", JValue.str "abc123"),
       ("secure", JValue.bool true)]]))).reportedCount = some 1 ∧
    (runProgram "" (InputState.parsed (JValue.arr [JValue.obj
      [("domain", JValue.str ".example.com"), ("name", JValue.str "sid"),
       ("value", JValue.str "abc123"),
       ("secure", JValue.bool true)]]))).stdout =
      ["Converted 1 cookies from JSON to Netscape format.",
       "Saved to " ++ output_file ++ ".",
       "Conversion complete."] :=
  C8_success_reports_count ""
    [JValue.obj [("domain", JValue.str ".example.com"),
      ("name", JValue.str "sid"), ("value", JValue.str "abc123"),
      ("secure", JValue.bool true)]]
    (by simp)
    (by intro x hx; rw [List.mem_singleton] at hx; subst hx; rfl)

/-- C6: when the input is not valid JSON, or parses to a value that is
not an array of mappings, the run aborts with a nonzero exit and no
records are reported as converted — the behavioral content of the spec's
`ParseError` class. -/
theorem C6_parse_failures (prior : String) (i : InputState)
    (h : i = InputState.invalid ∨
      ∃ v, i = InputState.parsed v ∧ isArrayOfMappings v = false) :
    (runProgram prior i).exitOk = false ∧
    (runProgram prior i).reportedCount = none := by
  rcases h with rfl | ⟨v, rfl, hv⟩
  · exact ⟨rfl, rfl⟩
  cases v with
  | null => exact ⟨rfl, rfl⟩
  | bool b => exact ⟨rfl, rfl⟩
  | num q => exact ⟨rfl, rfl⟩
  | str s =>
    rcases hlo : linesOut (s.toList.map (fun c => JValue.str (String.singleton c)))
      with ⟨body, ok⟩
    simp only [String.toList] at hlo
    cases ok with
    | false => simp [runProgram, pyIter, hlo]
    | true =>
      have hobj := linesOut_snd_true_all_obj _ (by rw [hlo])
      have hnil : s.data = [] := by
        cases hs : s.data with
        | nil => rfl
        | cons c cs =>
          have h1 := hobj (JValue.str (String.singleton c)) (by rw [hs]; simp)
          simp [isObj] at h1
      simp [runProgram, pyIter, String.toList, hnil, linesOut, pyTruthy]
  | obj entries =>
    rcases hlo : linesOut (entries.map (fun kv => JValue.str kv.1)) with ⟨body, ok⟩
    cases ok with
    | false => simp [runProgram, pyIter, hlo]
    | true =>
      have hobj := linesOut_snd_true_all_obj _ (by rw [hlo])
      have hnil : entries = [] := by
        cases hs : entries with
        | nil => rfl
        | cons kv rest =>
          have h1 := hobj (JValue.str kv.1) (by rw [hs]; simp)
          simp [isObj] at h1
      subst hnil
      simp [runProgram, pyIter, linesOut, pyTruthy]
  | arr elems =>
    rcases hlo : linesOut elems with ⟨body, ok⟩
    cases ok with
    | false => simp [runProgram, pyIter, hlo]
    | true =>
      exfalso
      have hobj := linesOut_snd_true_all_obj elems (by rw [hlo])
      have hall : isArrayOfMappings (JValue.arr elems) = true := by
        simp only [isArrayOfMappings, List.all_eq_true]
        exact fun x hx => hobj x hx
      rw [hv] at hall
      exact Bool.false_ne_true hall

/-- C6 witness: unparsable input content. -/
theorem C6_witness :
    (runProgram "" InputState.invalid).exitOk = false ∧
    (runProgram "" InputState.invalid).reportedCount = none :=
  C6_parse_failures "" InputState.invalid (Or.inl rfl)

/-- C2 counterexample: a single valid record whose `value` string
contains an embedded newline (`"a\nb"`) makes the written file have
4 newline-terminated lines, not `len(input) + 2 = 3` — the field strings
are written verbatim, with no escaping. -/
theorem C2_counterexample :
    ¬ (newlineCount (runProgram "" (InputState.parsed (JValue.arr
        [JValue.obj [("value", JValue.str "a\nb")]]))).outputContent = 1 + 2) := by
  decide

/-- C2 (amended): for every valid non-empty JSON array of cookie
records, the output file is — unconditionally — exactly the fixed
two-line header followed by one tab-joined, newline-terminated chunk
per record, in input order, overwriting any prior content; and provided
no record's chunk contains an embedded newline (each chunk's only
newline is its terminator — i.e. no field string contains a newline),
the file has exactly `len(input) + 2` lines. -/
theorem C2_header_then_one_chunk_per_record (prior : String)
    (elems : List JValue) (ls : List String) (hne : elems ≠ [])
    (hf : List.Forall₂ (fun x l => recordLine x = some l) elems ls) :
    runProgram prior (InputState.parsed (JValue.arr elems)) =
      ⟨true, netscapeHeader ++ concatLines ls,
       ["Converted " ++ toString elems.length ++
         " cookies from JSON to Netscape format.",
        "Saved to " ++ output_file ++ ".",
        "Conversion complete."],
       some elems.length⟩ ∧
    (chunksSingleNewline ls = true →
      newlineCount (netscapeHeader ++ concatLines ls) = elems.length + 2) := by
  have hlo := linesOut_eq_of_forall₂ hf
  constructor
  · cases elems with
    | nil => exact absurd rfl hne
    | cons c rest => simp [runProgram, pyIter, hlo, pyTruthy, List.isEmpty]
  · intro hb
    have hnl : ∀ l ∈ ls, newlineCount l = 1 := by
      intro l hl
      have h1 := List.all_eq_true.mp hb l hl
      simpa using h1
    rw [newlineCount_append, newlineCount_concatLines ls hnl, ← hf.length_eq]
    have h2 : newlineCount netscapeHeader = 2 := by decide
    rw [h2]
    omega

/-- C2 witness: one newline-free record; the file is the header plus its
single chunk, 3 lines in all. -/
theorem C2_witness :
    runProgram "" (InputState.parsed (JValue.arr
        [JValue.obj [("name", JValue.str "sid")]])) =
      ⟨true, netscapeHeader ++ concatLines ["\tFALSE\t/\tFALSE\t2147483647\tsid\t\n"],
       ["Converted 1 cookies from JSON to Netscape format.",
        "Saved to " ++ output_file ++ ".",
        "Conversion complete."],
       some 1⟩ ∧
    (chunksSingleNewline ["\tFALSE\t/\tFALSE\t2147483647\tsid\t\n"] = true →
      newlineCount (netscapeHeader ++
        concatLines ["\tFALSE\t/\tFALSE\t2147483647\tsid\t\n"]) = 1 + 2) :=
  C2_header_then_one_chunk_per_record ""
    [JValue.obj [("name", JValue.str "sid")]]
    ["\tFALSE\t/\tFALSE\t2147483647\tsid\t\n"]
    (by simp)
    (List.Forall₂.cons (by decide) List.Forall₂.nil)
